import Mathlib

/-!
Verification of the app-portal server (`src/server.js`): a shallow embedding of
its data model (the `apps` table), its store operations (the SQL statements it
issues through `pg`), its route handlers and its authentication middleware,
together with theorems settling the specified behaviour.
-/

namespace AppPortal

/-- A persisted row of the `apps` table:
`id SERIAL PRIMARY KEY, title TEXT NOT NULL, url TEXT NOT NULL, image TEXT,
healthpath TEXT, created_at TIMESTAMP DEFAULT CURRENT_TIMESTAMP`
(server.js lines 44-53). Timestamps are modelled as naturals. -/
structure AppRow where
  id : Nat
  title : String
  url : String
  image : Option String
  healthpath : Option String
  created_at : Nat
deriving DecidableEq

/-- The JSON request body `\x7b title, url, image, healthpath \x7d` destructured by the
create and update handlers; each field may be absent (`undefined`), which the
driver sends to the store as NULL. -/
structure AppBody where
  title : Option String
  url : Option String
  image : Option String
  healthpath : Option String
deriving DecidableEq

/-- The state of the `apps` table: rows in insertion order plus the SERIAL
sequence that assigns the next `id`. -/
structure Store where
  rows : List AppRow
  nextId : Nat
deriving DecidableEq

/-- A freshly created `apps` table: no rows, SERIAL sequence at 1. -/
def Store.fresh : Store := ⟨[], 1⟩

/-! ### PostgreSQL text-to-integer coercion

The update and delete handlers pass `req.params.id` (a string) as the `$n`
parameter compared against the integer `id` column; the store coerces the text
to a 32-bit integer (`pg_strtoint32`), raising
`invalid input syntax for type integer` when the text is not whitespace, an
optional sign and decimal digits, and
`value ... is out of range for type integer` (SQLSTATE 22003) when the decimal
exceeds the int4 range. -/

/-- Whitespace skipped around an integer literal by the store's coercion:
the C `isspace` set (space, \t, \n, \v, \f, \r). -/
def isSpaceChar (c : Char) : Bool :=
  c == ' ' || c == '\t' || c == '\n' || c == '\x0B' || c == '\x0C' || c == '\r'

/-- Strip leading and trailing whitespace from a character list. -/
def trimChars (l : List Char) : List Char :=
  ((l.dropWhile isSpaceChar).reverse.dropWhile isSpaceChar).reverse

/-- Value of a nonempty all-digit character list, `none` otherwise. -/
def digitsVal (l : List Char) : Option Nat :=
  if l.isEmpty then none
  else if l.all Char.isDigit then
    some (l.foldl (fun acc c => acc * 10 + (c.toNat - 48)) 0)
  else none

/-- The error message the store raises when a text parameter cannot be coerced
to an integer. -/
def pgIntErrMsg (s : String) : String :=
  "invalid input syntax for type integer: \"" ++ s ++ "\""

/-- The error message the store raises when an integer parameter exceeds the
int4 range (SQLSTATE 22003). -/
def pgRangeErrMsg (s : String) : String :=
  "value \"" ++ s ++ "\" is out of range for type integer"

/-- The store's coercion of a text parameter to a 32-bit integer: skip
whitespace on both sides, read an optional sign and decimal digits, and
range-check the value against int4. -/
def parsePgInt (s : String) : Except String Int :=
  match trimChars s.data with
  | [] => .error (pgIntErrMsg s)
  | c :: rest =>
    let val : Option Int :=
      if c == '-' then (digitsVal rest).map (fun n => -(n : Int))
      else if c == '+' then (digitsVal rest).map (fun n => (n : Int))
      else (digitsVal (c :: rest)).map (fun n => (n : Int))
    match val with
    | none => .error (pgIntErrMsg s)
    | some k =>
      if k < -2147483648 ∨ 2147483647 < k then .error (pgRangeErrMsg s)
      else .ok k

/-- The error message the store raises when a NOT NULL column receives NULL. -/
def notNullMsg (col : String) : String :=
  "null value in column \"" ++ col ++ "\" violates not-null constraint"

/-- Does a row match the coerced id `k`? (`WHERE id = $n`). -/
def idMatches (k : Int) (r : AppRow) : Bool := (r.id : Int) == k

/-- `INSERT INTO apps (title, url, image, healthpath) VALUES ($1,$2,$3,$4)
RETURNING *` (server.js lines 83-86): assigns the SERIAL id and the
`created_at` default, enforcing NOT NULL on `title` and `url`. -/
def sqlInsert (store : Store) (b : AppBody) (now : Nat) :
    Except String (AppRow × Store) :=
  match b.title, b.url with
  | some t, some u =>
    let row : AppRow :=
      { id := store.nextId, title := t, url := u, image := b.image,
        healthpath := b.healthpath, created_at := now }
    .ok (row, { rows := store.rows ++ [row], nextId := store.nextId + 1 })
  | none, _ => .error (notNullMsg "title")
  | some _, none => .error (notNullMsg "url")

/-- `SELECT * FROM apps ORDER BY created_at DESC` (server.js line 72):
rows reordered newest first. -/
def newerFirst (a b : AppRow) : Prop := b.created_at ≤ a.created_at

instance : DecidableRel newerFirst := fun a b => Nat.decLe b.created_at a.created_at

instance : IsTotal AppRow newerFirst := ⟨fun a b => Nat.le_total b.created_at a.created_at⟩

instance : IsTrans AppRow newerFirst := ⟨fun _ _ _ h1 h2 => Nat.le_trans h2 h1⟩

/-- Result set of the list query: all rows ordered by `created_at` descending. -/
def listRows (store : Store) : List AppRow :=
  store.rows.insertionSort newerFirst

/-- Apply the `SET` clause of the update statement to one row. -/
def applySet (t u : String) (img hp : Option String) (r : AppRow) : AppRow :=
  { r with title := t, url := u, image := img, healthpath := hp }

/-- `UPDATE apps SET title=$1, url=$2, image=$3, healthpath=$4 WHERE id=$5
RETURNING *` (server.js lines 97-100): coerce the id, update every matching
row, and return the first updated row (`result.rows[0]`), `none` when no row
matched; NOT NULL on `title`/`url` is enforced only when a row is updated. -/
def sqlUpdate (store : Store) (idStr : String) (b : AppBody) :
    Except String (Option (AppRow × Store)) :=
  match parsePgInt idStr with
  | .error m => .error m
  | .ok k =>
    match store.rows.filter (idMatches k) with
    | [] => .ok none
    | r :: _ =>
      match b.title, b.url with
      | some t, some u =>
        .ok (some (applySet t u b.image b.healthpath r,
          { store with rows :=
              store.rows.map (fun x =>
                if idMatches k x then applySet t u b.image b.healthpath x else x) }))
      | none, _ => .error (notNullMsg "title")
      | some _, none => .error (notNullMsg "url")

/-- `DELETE FROM apps WHERE id = $1 RETURNING *` (server.js line 113): coerce
the id, remove every matching row, and return the first removed row
(`result.rows[0]`), `none` when no row matched. -/
def sqlDelete (store : Store) (idStr : String) :
    Except String (Option (AppRow × Store)) :=
  match parsePgInt idStr with
  | .error m => .error m
  | .ok k =>
    match store.rows.filter (idMatches k) with
    | [] => .ok none
    | r :: _ =>
      .ok (some (r, { store with rows := store.rows.filter (fun x => !(idMatches k x)) }))

/-! ### HTTP layer -/

/-- The JSON bodies the handlers send, one constructor per object shape in
server.js. -/
inductive Body
  | error (msg : String)
  | errorDetails (msg details : String)
  | message (msg : String)
  | row (r : AppRow)
  | rows (rs : List AppRow)
  | removed (message : String) (removedApp : AppRow)
  | config (companyName companyIcon : String)
deriving DecidableEq

/-- A response: `res.status(c).json(b)` / `res.json(b)` (status 200),
`res.redirect(loc)`, `res.sendStatus(c)` (status code with its canonical text,
no other body), or `res.sendFile(name)`. -/
inductive Response
  | json (status : Nat) (body : Body)
  | redirect (location : String)
  | sendStatus (status : Nat)
  | sendFile (name : String)
deriving DecidableEq

/-- `req.session`: the authentication flag and recorded username. A brand-new
session has neither set. -/
structure Session where
  authenticated : Bool
  user : Option String
deriving DecidableEq

/-- The routes server.js registers, with the request data each one reads. -/
inductive Route
  | listApps
  | createApp (b : AppBody)
  | updateApp (idStr : String) (b : AppBody)
  | deleteApp (idStr : String)
  | proxyHealth (url : Option String)
  | loginPage
  | login (username password : Option String)
  | logout
  | adminPage
  | getConfig
deriving DecidableEq

/-- Outcome of the outbound `fetch(healthUrl)` call. -/
inductive FetchOutcome
  | status (code : Nat)
  | networkError (msg : String)
deriving DecidableEq

/-- The configured credentials and optional branding the running server reads
from its environment (startup guarantees the credentials are set). -/
structure RunCfg where
  adminUsername : String
  adminPassword : String
  companyName : Option String
  companyIcon : Option String

/-- External nondeterminism for one request: the store's clock for
`CURRENT_TIMESTAMP`, a connectivity failure of the store query (`none` = the
query runs), the outbound fetch's outcome, and whether `session.destroy`
reports an error. -/
structure Effects where
  now : Nat
  dbErr : Option String
  fetch : String → FetchOutcome
  destroyErr : Bool

/-- JavaScript truthiness of a string-or-absent value: `undefined` and `""`
are falsy. -/
def truthy (o : Option String) : Bool :=
  match o with
  | none => false
  | some s => !(s == "")

/-- JavaScript `a.includes(b)`: does `b` occur as a substring of `a`? -/
def isPrefixOfChars : List Char → List Char → Bool
  | [], _ => true
  | _ :: _, [] => false
  | a :: as, b :: bs => a == b && isPrefixOfChars as bs

/-- Substring occurrence over character lists. -/
def containsSubChars (sub : List Char) : List Char → Bool
  | [] => isPrefixOfChars sub []
  | c :: rest => isPrefixOfChars sub (c :: rest) || containsSubChars sub rest

/-- `req.headers.accept && req.headers.accept.includes('application/json')`
(server.js line 62). -/
def jsonAccepted (accept : Option String) : Bool :=
  match accept with
  | none => false
  | some s => containsSubChars "application/json".data s.data

/-- `x || dflt` for an environment string: JavaScript falls back on falsy. -/
def jsOr (o : Option String) (d : String) : String :=
  match o with
  | none => d
  | some s => if s == "" then d else s

/-- The `isAuthenticated` middleware (server.js lines 58-66): an authenticated
session passes through to the handler; otherwise a JSON-accepting request gets
401 with a JSON error body, and any other request a redirect to `/login`. -/
def isAuthenticated (s : Session) (accept : Option String)
    (next : Store × Response) (store : Store) : Store × Response :=
  if s.authenticated then next
  else if jsonAccepted accept then
    (store, .json 401 (.error "Yetkisiz erişim. Lütfen giriş yapın."))
  else
    (store, .redirect "/login")

/-- `GET /api/apps` (server.js lines 70-77). -/
def getApps (store : Store) (eff : Effects) : Store × Response :=
  match eff.dbErr with
  | some m => (store, .json 500 (.error m))
  | none => (store, .json 200 (.rows (listRows store)))

/-- `POST /api/apps` handler body (server.js lines 79-91). -/
def postApps (store : Store) (b : AppBody) (eff : Effects) : Store × Response :=
  match eff.dbErr with
  | some m => (store, .json 500 (.error m))
  | none =>
    match sqlInsert store b eff.now with
    | .error m => (store, .json 500 (.error m))
    | .ok (row, store') => (store', .json 200 (.row row))

/-- `PUT /api/apps/:id` handler body (server.js lines 93-108). -/
def putApps (store : Store) (idStr : String) (b : AppBody) (eff : Effects) :
    Store × Response :=
  match eff.dbErr with
  | some m => (store, .json 500 (.error m))
  | none =>
    match sqlUpdate store idStr b with
    | .error m => (store, .json 500 (.error m))
    | .ok none => (store, .json 404 (.error "Uygulama bulunamadı."))
    | .ok (some (row, store')) => (store', .json 200 (.row row))

/-- `DELETE /api/apps/:id` handler body (server.js lines 110-121). -/
def deleteApps (store : Store) (idStr : String) (eff : Effects) :
    Store × Response :=
  match eff.dbErr with
  | some m => (store, .json 500 (.error m))
  | none =>
    match sqlDelete store idStr with
    | .error m => (store, .json 500 (.error m))
    | .ok none => (store, .json 404 (.error "Uygulama bulunamadı."))
    | .ok (some (row, store')) =>
      (store', .json 200 (.removed "Uygulama silindi." row))

/-- `GET /proxy-health` (server.js lines 124-135). `req.query.url` is falsy
when absent or the empty string. -/
def proxyHealthHandler (url : Option String) (fetchOutcome : String → FetchOutcome) :
    Response :=
  if truthy url = false then .json 400 (.error "Health URL belirtilmedi.")
  else
    match url with
    | none => .json 400 (.error "Health URL belirtilmedi.")
    | some u =>
      match fetchOutcome u with
      | .status c => .sendStatus c
      | .networkError m => .json 500 (.errorDetails "Health check başarısız." m)

/-- One request through the server: routing plus each handler, returning the
session after the request, the table state after the request, and the
response. -/
def serverStep (cfg : RunCfg) (route : Route) (accept : Option String)
    (s : Session) (store : Store) (eff : Effects) :
    Session × Store × Response :=
  match route with
  | .listApps => (s, getApps store eff)
  | .createApp b => (s, isAuthenticated s accept (postApps store b eff) store)
  | .updateApp idStr b => (s, isAuthenticated s accept (putApps store idStr b eff) store)
  | .deleteApp idStr => (s, isAuthenticated s accept (deleteApps store idStr eff) store)
  | .proxyHealth url => (s, store, proxyHealthHandler url eff.fetch)
  | .loginPage => (s, store, .sendFile "login.html")
  | .login u p =>
    if u = some cfg.adminUsername ∧ p = some cfg.adminPassword then
      ({ authenticated := true, user := u }, store, .json 200 (.message "Giriş başarılı!"))
    else
      (s, store, .json 401 (.error "Geçersiz kimlik bilgileri."))
  | .logout =>
    if eff.destroyErr then (s, store, .json 500 (.error "Çıkış yapılamadı."))
    else ({ authenticated := false, user := none }, store,
      .json 200 (.message "Başarıyla çıkış yapıldı."))
  | .adminPage => (s, isAuthenticated s accept (store, .sendFile "admin.html") store)
  | .getConfig => (s, store, .json 200 (.config (jsOr cfg.companyName "Default Company")
      (jsOr cfg.companyIcon "https://via.placeholder.com/40")))

/-! ### Startup -/

/-- The environment values read at startup (server.js lines 11-16); each may be
unset (`undefined`). -/
structure Env where
  databaseUrl : Option String
  sessionSecret : Option String
  adminUsername : Option String
  adminPassword : Option String
deriving DecidableEq

/-- Startup either exits the process with a code or proceeds to serve. -/
inductive StartupResult
  | exited (code : Nat)
  | started
deriving DecidableEq

/-- The startup environment check (server.js lines 19-22):
`if (!DATABASE_URL || !SESSION_SECRET || !ADMIN_USERNAME || !ADMIN_PASSWORD)
process.exit(1)`. -/
def startup (e : Env) : StartupResult :=
  if !truthy e.databaseUrl || !truthy e.sessionSecret
      || !truthy e.adminUsername || !truthy e.adminPassword then
    .exited 1
  else
    .started

/-! ### Sequences of creates (for the id-monotonicity property) -/

/-- Run a sequence of create operations against the store; a failing insert
leaves the table unchanged. -/
def runCreates (store : Store) : List (AppBody × Nat) → Store
  | [] => store
  | (b, now) :: rest =>
    match sqlInsert store b now with
    | .ok (_, store') => runCreates store' rest
    | .error _ => runCreates store rest

/-- The SERIAL id invariant: rows carry strictly increasing ids, all below the
sequence counter. -/
def idsIncreasing (store : Store) : Prop :=
  store.rows.Pairwise (fun a b => a.id < b.id) ∧
  ∀ r ∈ store.rows, r.id < store.nextId

/-! ### Concrete fixtures used to instantiate the theorems -/

/-- A concrete running configuration. -/
def cfgEx : RunCfg := ⟨"admin", "hunter2", none, none⟩

/-- Concrete effects: clock at 0, store reachable, every fetch answers 200,
session destruction succeeds. -/
def effEx : Effects := ⟨0, none, fun _ => .status 200, false⟩

/-- Concrete effects whose fetch answers 503. -/
def eff503 : Effects := ⟨0, none, fun _ => .status 503, false⟩

/-- A concrete table holding one row with id 1. -/
def storeEx : Store := ⟨[⟨1, "a", "b", none, none, 5⟩], 2⟩

/-! ### Theorems -/

/-- Claim C1: for every request to a guarded route (create/update/delete app,
admin page), an Authenticated session lets the handler run unchanged; an
unauthenticated request whose Accept header includes `application/json`
receives HTTP 401 with a JSON error body; any other unauthenticated request is
redirected to the login entry point `/login`. -/
theorem claim_C1 (cfg : RunCfg) (accept : Option String) (s : Session)
    (store : Store) (eff : Effects) (b : AppBody) (idStr idStr2 : String) :
    (s.authenticated = true →
      serverStep cfg (.createApp b) accept s store eff = (s, postApps store b eff) ∧
      serverStep cfg (.updateApp idStr b) accept s store eff = (s, putApps store idStr b eff) ∧
      serverStep cfg (.deleteApp idStr2) accept s store eff = (s, deleteApps store idStr2 eff) ∧
      serverStep cfg .adminPage accept s store eff = (s, store, .sendFile "admin.html")) ∧
    (s.authenticated = false → jsonAccepted accept = true →
      ∀ route ∈ [Route.createApp b, Route.updateApp idStr b,
                  Route.deleteApp idStr2, Route.adminPage],
        serverStep cfg route accept s store eff =
          (s, store, .json 401 (.error "Yetkisiz erişim. Lütfen giriş yapın."))) ∧
    (s.authenticated = false → jsonAccepted accept = false →
      ∀ route ∈ [Route.createApp b, Route.updateApp idStr b,
                  Route.deleteApp idStr2, Route.adminPage],
        serverStep cfg route accept s store eff = (s, store, .redirect "/login")) := by
  refine ⟨fun h => ?_, fun h hj route hr => ?_, fun h hj route hr => ?_⟩
  · refine ⟨?_, ?_, ?_, ?_⟩ <;> simp [serverStep, isAuthenticated, h]
  · have : route = Route.createApp b ∨ route = Route.updateApp idStr b ∨
        route = Route.deleteApp idStr2 ∨ route = Route.adminPage := by
      simpa using hr
    rcases this with rfl | rfl | rfl | rfl <;>
      simp [serverStep, isAuthenticated, h, hj]
  · have : route = Route.createApp b ∨ route = Route.updateApp idStr b ∨
        route = Route.deleteApp idStr2 ∨ route = Route.adminPage := by
      simpa using hr
    rcases this with rfl | rfl | rfl | rfl <;>
      simp [serverStep, isAuthenticated, h, hj]

/-- Witness for C1: an unauthenticated JSON-accepting delete request is
answered 401 with the JSON error body. -/
theorem claim_C1_witness :
    serverStep cfgEx (.deleteApp "7") (some "application/json")
      ⟨false, none⟩ Store.fresh effEx =
      (⟨false, none⟩, Store.fresh,
        .json 401 (.error "Yetkisiz erişim. Lütfen giriş yapın.")) := by
  have h := (claim_C1 cfgEx (some "application/json") ⟨false, none⟩ Store.fresh
    effEx ⟨none, none, none, none⟩ "7" "7").2.1 rfl (by decide)
  exact h _ (by simp)

/-- Claim C2: the per-session authentication state machine. A login with
exactly the configured admin pair marks the session Authenticated, records the
username and answers a success message; any other login attempt answers 401
with an error message and leaves the session unchanged (hence still
Unauthenticated); logout destroys the session, leaving it Unauthenticated; and
no route other than login and logout changes the session. -/
theorem claim_C2 (cfg : RunCfg) (accept : Option String) (s : Session)
    (store : Store) (eff : Effects) :
    (serverStep cfg (.login (some cfg.adminUsername) (some cfg.adminPassword))
        accept s store eff =
      ({ authenticated := true, user := some cfg.adminUsername }, store,
        .json 200 (.message "Giriş başarılı!"))) ∧
    (∀ u p : Option String,
      ¬(u = some cfg.adminUsername ∧ p = some cfg.adminPassword) →
      serverStep cfg (.login u p) accept s store eff =
        (s, store, .json 401 (.error "Geçersiz kimlik bilgileri."))) ∧
    (eff.destroyErr = false →
      serverStep cfg .logout accept s store eff =
        ({ authenticated := false, user := none }, store,
          .json 200 (.message "Başarıyla çıkış yapıldı."))) ∧
    (∀ route : Route, (∀ u p, route ≠ .login u p) → route ≠ .logout →
      (serverStep cfg route accept s store eff).1 = s) := by
  refine ⟨?_, fun u p h => ?_, fun h => ?_, fun route hlogin hlogout => ?_⟩
  · simp [serverStep]
  · simp [serverStep, h]
  · simp [serverStep, h]
  · cases route with
    | login u p => exact absurd rfl (hlogin u p)
    | logout => exact absurd rfl hlogout
    | listApps => rfl
    | createApp b => rfl
    | updateApp idStr b => rfl
    | deleteApp idStr => rfl
    | proxyHealth url => rfl
    | loginPage => rfl
    | adminPage => rfl
    | getConfig => rfl

/-- Witness for C2: a login with the right username but a wrong password is
answered 401 and does not authenticate the session. -/
theorem claim_C2_witness :
    serverStep cfgEx (.login (some "admin") (some "wrong")) none
      ⟨false, none⟩ Store.fresh effEx =
      (⟨false, none⟩, Store.fresh,
        .json 401 (.error "Geçersiz kimlik bilgileri.")) :=
  (claim_C2 cfgEx none ⟨false, none⟩ Store.fresh effEx).2.1
    (some "admin") (some "wrong") (by decide)

/-- Claim C3: after an authenticated create of an App with field values
(T, U, I, H) that the store accepts, an immediately following list request
answers 200 with the rows of the resulting table, that array contains an entry
with exactly those four field values whose `created_at` is no earlier than the
create call's timestamp, and the array is ordered newest first (`created_at`
descending). -/
theorem claim_C3 (cfg : RunCfg) (accept accept2 : Option String) (s : Session)
    (store : Store) (eff1 eff2 : Effects) (T U : String) (I H : Option String)
    (hauth : s.authenticated = true) (hdb1 : eff1.dbErr = none)
    (hdb2 : eff2.dbErr = none) :
    ∀ s1 store1 resp1,
      serverStep cfg (.createApp ⟨some T, some U, I, H⟩) accept s store eff1 =
        (s1, store1, resp1) →
      (serverStep cfg .listApps accept2 s1 store1 eff2).2.2 =
        .json 200 (.rows (listRows store1)) ∧
      List.Sorted newerFirst (listRows store1) ∧
      ∃ r ∈ listRows store1, r.title = T ∧ r.url = U ∧ r.image = I ∧
        r.healthpath = H ∧ eff1.now ≤ r.created_at := by
  intro s1 store1 resp1 hstep
  have hstep' : serverStep cfg (.createApp ⟨some T, some U, I, H⟩) accept s store eff1 =
      (s, { rows := store.rows ++
              [⟨store.nextId, T, U, I, H, eff1.now⟩], nextId := store.nextId + 1 },
        .json 200 (.row ⟨store.nextId, T, U, I, H, eff1.now⟩)) := by
    simp [serverStep, isAuthenticated, hauth, postApps, hdb1, sqlInsert]
  rw [hstep'] at hstep
  obtain ⟨rfl, rfl, rfl⟩ : s1 = s ∧
      store1 = { rows := store.rows ++ [⟨store.nextId, T, U, I, H, eff1.now⟩],
                 nextId := store.nextId + 1 } ∧
      resp1 = .json 200 (.row ⟨store.nextId, T, U, I, H, eff1.now⟩) := by
    have h1 := congrArg Prod.fst hstep.symm
    have h2 := congrArg (fun x => x.2.1) hstep.symm
    have h3 := congrArg (fun x => x.2.2) hstep.symm
    exact ⟨h1, h2, h3⟩
  refine ⟨by simp [serverStep, getApps, hdb2], List.sorted_insertionSort _ _, ?_⟩
  refine ⟨⟨store.nextId, T, U, I, H, eff1.now⟩, ?_, rfl, rfl, rfl, rfl, Nat.le_refl _⟩
  simp [listRows]

/-- Witness for C3: creating ("t", "u", none, none) in a fresh table and then
listing returns a sorted array containing exactly that entry. -/
theorem claim_C3_witness :
    ∃ r ∈ listRows ⟨[⟨1, "t", "u", none, none, 0⟩], 2⟩,
      r.title = "t" ∧ r.url = "u" ∧ r.image = none ∧ r.healthpath = none ∧
      (0 : Nat) ≤ r.created_at :=
  (claim_C3 cfgEx none none ⟨true, some "admin"⟩ Store.fresh effEx effEx
    "t" "u" none none rfl rfl rfl ⟨true, some "admin"⟩
    ⟨[⟨1, "t", "u", none, none, 0⟩], 2⟩
    (.json 200 (.row ⟨1, "t", "u", none, none, 0⟩)) rfl).2.2

/-- The rows matching an id form the filter of the row list; a nonempty filter
starts with a row that matches. -/
theorem filter_head_matches {k : Int} {rows : List AppRow} {r : AppRow}
    {rest : List AppRow} (h : rows.filter (idMatches k) = r :: rest) :
    idMatches k r = true := by
  have : r ∈ rows.filter (idMatches k) := by
    rw [h]; exact List.mem_cons_self r rest
  exact (List.mem_filter.mp this).2

/-- Claim C4: for every authenticated update request with a path id the store
can coerce and all four body fields: if a row with that id exists, the
response is 200 with the JSON of the updated row; if no row with that id is
found, the response is 404 with an error body; and on a store failure the
response is 500 with the error message. -/
theorem claim_C4 (cfg : RunCfg) (accept : Option String) (s : Session)
    (store : Store) (eff : Effects) (idStr : String) (t u : String)
    (img hp : Option String) (hauth : s.authenticated = true) :
    (∀ m, eff.dbErr = some m →
      (serverStep cfg (.updateApp idStr ⟨some t, some u, img, hp⟩)
        accept s store eff).2.2 = .json 500 (.error m)) ∧
    (eff.dbErr = none → ∀ k, parsePgInt idStr = .ok k →
      ((∃ r ∈ store.rows, idMatches k r = true) →
        ∃ r', (serverStep cfg (.updateApp idStr ⟨some t, some u, img, hp⟩)
            accept s store eff).2.2 = .json 200 (.row r') ∧
          idMatches k r' = true ∧ r'.title = t ∧ r'.url = u ∧
          r'.image = img ∧ r'.healthpath = hp) ∧
      ((∀ r ∈ store.rows, ¬ idMatches k r = true) →
        (serverStep cfg (.updateApp idStr ⟨some t, some u, img, hp⟩)
          accept s store eff).2.2 = .json 404 (.error "Uygulama bulunamadı."))) := by
  refine ⟨fun m hm => ?_, fun hdb k hk => ⟨fun hex => ?_, fun hnone => ?_⟩⟩
  · simp [serverStep, isAuthenticated, hauth, putApps, hm]
  · cases hfil : store.rows.filter (idMatches k) with
    | nil =>
      obtain ⟨r, hr, hmr⟩ := hex
      have : idMatches k r = false := by
        have := List.filter_eq_nil_iff.mp hfil r hr
        simpa using this
      rw [hmr] at this
      exact absurd this (by simp)
    | cons r0 rest =>
      refine ⟨applySet t u img hp r0, ?_, ?_, rfl, rfl, rfl, rfl⟩
      · simp [serverStep, isAuthenticated, hauth, putApps, hdb, sqlUpdate, hk, hfil]
      · have hm := filter_head_matches hfil
        simpa [idMatches, applySet] using hm
  · have hfil : store.rows.filter (idMatches k) = [] :=
      List.filter_eq_nil_iff.mpr fun r hr => by simpa using hnone r hr
    simp [serverStep, isAuthenticated, hauth, putApps, hdb, sqlUpdate, hk, hfil]

/-- Witness for C4: an authenticated update of the absent id 2 answers 404. -/
theorem claim_C4_witness :
    (serverStep cfgEx (.updateApp "2" ⟨some "x", some "y", none, none⟩) none
      ⟨true, none⟩ storeEx effEx).2.2 = .json 404 (.error "Uygulama bulunamadı.") :=
  ((claim_C4 cfgEx none ⟨true, none⟩ storeEx effEx "2" "x" "y" none none
    rfl).2 rfl 2 rfl).2 (by decide)

/-- Claim C5: delete is not idempotent. An authenticated delete of a
coercible id matching no row answers 404, not success; deleting an existing id
answers 200 with a message and the removed row, and a second authenticated
delete of the same id answers 404. -/
theorem claim_C5 (cfg : RunCfg) (accept : Option String) (s : Session)
    (store : Store) (eff : Effects) (idStr : String)
    (hauth : s.authenticated = true) (hdb : eff.dbErr = none) :
    (∀ k, parsePgInt idStr = .ok k → (∀ r ∈ store.rows, ¬ idMatches k r = true) →
      (serverStep cfg (.deleteApp idStr) accept s store eff).2.2 =
        .json 404 (.error "Uygulama bulunamadı.")) ∧
    (∀ k, parsePgInt idStr = .ok k → (∃ r ∈ store.rows, idMatches k r = true) →
      ∃ r0 store1,
        serverStep cfg (.deleteApp idStr) accept s store eff =
          (s, store1, .json 200 (.removed "Uygulama silindi." r0)) ∧
        idMatches k r0 = true ∧
        ∀ eff2 : Effects, eff2.dbErr = none →
          (serverStep cfg (.deleteApp idStr) accept s store1 eff2).2.2 =
            .json 404 (.error "Uygulama bulunamadı.")) := by
  refine ⟨fun k hk hnone => ?_, fun k hk hex => ?_⟩
  · have hfil : store.rows.filter (idMatches k) = [] :=
      List.filter_eq_nil_iff.mpr fun r hr => by simpa using hnone r hr
    simp [serverStep, isAuthenticated, hauth, deleteApps, hdb, sqlDelete, hk, hfil]
  · cases hfil : store.rows.filter (idMatches k) with
    | nil =>
      obtain ⟨r, hr, hmr⟩ := hex
      have := List.filter_eq_nil_iff.mp hfil r hr
      rw [hmr] at this
      exact absurd this (by simp)
    | cons r0 rest =>
      refine ⟨r0, { store with rows := store.rows.filter (fun x => !(idMatches k x)) },
        ?_, filter_head_matches hfil, fun eff2 hdb2 => ?_⟩
      · simp [serverStep, isAuthenticated, hauth, deleteApps, hdb, sqlDelete, hk, hfil]
      · have hfil2 : (store.rows.filter (fun x => !(idMatches k x))).filter
            (idMatches k) = [] := by
          refine List.filter_eq_nil_iff.mpr fun r hr => ?_
          have := (List.mem_filter.mp hr).2
          simpa using this
        simp [serverStep, isAuthenticated, hauth, deleteApps, hdb2, sqlDelete, hk, hfil2]

/-- Witness for C5: deleting id 1 from the one-row table succeeds with the
removed row, and repeating the delete answers 404. -/
theorem claim_C5_witness :
    ∃ r0 store1,
      serverStep cfgEx (.deleteApp "1") none ⟨true, none⟩ storeEx effEx =
        (⟨true, none⟩, store1, .json 200 (.removed "Uygulama silindi." r0)) ∧
      idMatches 1 r0 = true ∧
      ∀ eff2 : Effects, eff2.dbErr = none →
        (serverStep cfgEx (.deleteApp "1") none ⟨true, none⟩ store1 eff2).2.2 =
          .json 404 (.error "Uygulama bulunamadı.") :=
  (claim_C5 cfgEx none ⟨true, none⟩ storeEx effEx "1" rfl rfl).2 1 rfl
    ⟨⟨1, "a", "b", none, none, 5⟩, by simp [storeEx], by decide⟩

/-- Counterexample to claim C6 as stated: the `url` query parameter is present
but empty, the target would answer 503, yet the proxy answers 400 and not the
target's status code — `req.query.url` being falsy for the empty string, the
handler takes the missing-parameter branch. -/
theorem claim_C6_counterexample :
    (serverStep cfgEx (.proxyHealth (some "")) none ⟨false, none⟩ Store.fresh
        eff503).2.2 = .json 400 (.error "Health URL belirtilmedi.") ∧
    (serverStep cfgEx (.proxyHealth (some "")) none ⟨false, none⟩ Store.fresh
        eff503).2.2 ≠ .sendStatus 503 := by
  exact ⟨by rfl, by decide⟩

/-- Claim C6 (amended): for every request to the health proxy, if the `url`
query parameter is absent OR EMPTY the response is 400; otherwise the proxy
issues an outbound GET to that URL and its own status code equals the target's
status code with no relay of the target's body, and on a network/transport
failure the response is 500 with a generic message plus the underlying error's
description. -/
theorem claim_C6 (cfg : RunCfg) (accept : Option String) (s : Session)
    (store : Store) (eff : Effects) (url : Option String) :
    (truthy url = false →
      (serverStep cfg (.proxyHealth url) accept s store eff).2.2 =
        .json 400 (.error "Health URL belirtilmedi.")) ∧
    (∀ u, url = some u → u ≠ "" →
      (∀ c, eff.fetch u = .status c →
        (serverStep cfg (.proxyHealth url) accept s store eff).2.2 =
          .sendStatus c) ∧
      (∀ m, eff.fetch u = .networkError m →
        (serverStep cfg (.proxyHealth url) accept s store eff).2.2 =
          .json 500 (.errorDetails "Health check başarısız." m))) := by
  refine ⟨fun hf => ?_, fun u hu hne => ⟨fun c hc => ?_, fun m hm => ?_⟩⟩
  · simp [serverStep, proxyHealthHandler, hf]
  · have ht : truthy url = true := by
      subst hu; simp [truthy, hne]
    subst hu
    simp [serverStep, proxyHealthHandler, ht, hc]
  · have ht : truthy url = true := by
      subst hu; simp [truthy, hne]
    subst hu
    simp [serverStep, proxyHealthHandler, ht, hm]

/-- Witness for C6: a proxied probe of a nonempty URL whose target answers 503
is answered with status 503. -/
theorem claim_C6_witness :
    (serverStep cfgEx (.proxyHealth (some "http-target")) none ⟨false, none⟩
      Store.fresh eff503).2.2 = .sendStatus 503 :=
  ((claim_C6 cfgEx none ⟨false, none⟩ Store.fresh eff503
    (some "http-target")).2 "http-target" rfl (by decide)).1 503 rfl

/-- Counterexample to claim C7 as stated: all four configuration values are
present (none is absent) but one of them is the empty string, and startup
still exits — the startup check tests JavaScript truthiness, not presence. -/
theorem claim_C7_counterexample :
    (Env.mk (some "") (some "secret") (some "admin") (some "pw")).databaseUrl ≠ none ∧
    (Env.mk (some "") (some "secret") (some "admin") (some "pw")).sessionSecret ≠ none ∧
    (Env.mk (some "") (some "secret") (some "admin") (some "pw")).adminUsername ≠ none ∧
    (Env.mk (some "") (some "secret") (some "admin") (some "pw")).adminPassword ≠ none ∧
    startup (Env.mk (some "") (some "secret") (some "admin") (some "pw")) =
      .exited 1 := by
  refine ⟨by decide, by decide, by decide, by decide, rfl⟩

/-- Claim C7 (amended): if any of the four required configuration values is
absent OR EMPTY at startup, the process refuses to start and exits with the
non-zero code 1; if all four are present and non-empty, startup proceeds. -/
theorem claim_C7 (e : Env) :
    ((truthy e.databaseUrl && truthy e.sessionSecret && truthy e.adminUsername
        && truthy e.adminPassword) = true → startup e = .started) ∧
    ((truthy e.databaseUrl && truthy e.sessionSecret && truthy e.adminUsername
        && truthy e.adminPassword) = false →
      startup e = .exited 1 ∧ (1 : Nat) ≠ 0) := by
  obtain ⟨a, b, c, d⟩ := e
  cases ha : truthy a <;> cases hb : truthy b <;> cases hc : truthy c <;>
    cases hd : truthy d <;>
    refine ⟨fun h => ?_, fun h => ⟨?_, by decide⟩⟩ <;>
    simp_all [startup]

/-- Witness for C7: with all four values set and non-empty, startup proceeds. -/
theorem claim_C7_witness :
    startup ⟨some "postgres-dsn", some "secret", some "admin", some "pw"⟩ =
      .started :=
  (claim_C7 ⟨some "postgres-dsn", some "secret", some "admin", some "pw"⟩).1
    (by decide)

/-- Claim C8: an update leaves every row's `id` and `created_at` unchanged;
only `title`, `url`, `image` and `healthpath` are mutated (the row set itself
keeps its length and order). -/
theorem claim_C8 (store : Store) (idStr : String) (b : AppBody) (r : AppRow)
    (store' : Store) (h : sqlUpdate store idStr b = .ok (some (r, store'))) :
    store'.rows.map AppRow.id = store.rows.map AppRow.id ∧
    store'.rows.map AppRow.created_at = store.rows.map AppRow.created_at ∧
    store'.nextId = store.nextId := by
  cases hk : parsePgInt idStr with
  | error m => simp [sqlUpdate, hk] at h
  | ok k =>
    cases hfil : store.rows.filter (idMatches k) with
    | nil => simp [sqlUpdate, hk, hfil] at h
    | cons r0 rest =>
      cases hbt : b.title with
      | none => simp [sqlUpdate, hk, hfil, hbt] at h
      | some t =>
        cases hbu : b.url with
        | none => simp [sqlUpdate, hk, hfil, hbt, hbu] at h
        | some u =>
          simp only [sqlUpdate, hk, hfil, hbt, hbu, Except.ok.injEq,
            Option.some.injEq, Prod.mk.injEq] at h
          obtain ⟨hr, hs⟩ := h
          subst hs
          refine ⟨?_, ?_, rfl⟩
          · rw [List.map_map]
            refine List.map_congr_left fun x _ => ?_
            by_cases hx : idMatches k x = true <;> simp [hx, applySet]
          · rw [List.map_map]
            refine List.map_congr_left fun x _ => ?_
            by_cases hx : idMatches k x = true <;> simp [hx, applySet]

/-- Witness for C8: updating the one-row table keeps id 1 and its timestamp. -/
theorem claim_C8_witness :
    (⟨[⟨1, "n", "m", none, none, 5⟩], 2⟩ : Store).rows.map AppRow.id =
      storeEx.rows.map AppRow.id ∧
    (⟨[⟨1, "n", "m", none, none, 5⟩], 2⟩ : Store).rows.map AppRow.created_at =
      storeEx.rows.map AppRow.created_at ∧
    (⟨[⟨1, "n", "m", none, none, 5⟩], 2⟩ : Store).nextId = storeEx.nextId :=
  claim_C8 storeEx "1" ⟨some "n", some "m", none, none⟩
    ⟨1, "n", "m", none, none, 5⟩ ⟨[⟨1, "n", "m", none, none, 5⟩], 2⟩ rfl

/-- A successful insert preserves the SERIAL id invariant. -/
theorem insert_preserves_inv (store : Store) (b : AppBody) (now : Nat)
    (row : AppRow) (store' : Store) (hinv : idsIncreasing store)
    (h : sqlInsert store b now = .ok (row, store')) : idsIncreasing store' := by
  cases hbt : b.title with
  | none => simp [sqlInsert, hbt] at h
  | some t =>
    cases hbu : b.url with
    | none => simp [sqlInsert, hbt, hbu] at h
    | some u =>
      simp only [sqlInsert, hbt, hbu, Except.ok.injEq, Prod.mk.injEq] at h
      obtain ⟨hrow, hs⟩ := h
      subst hs
      constructor
      · rw [List.pairwise_append]
        refine ⟨hinv.1, by simp, ?_⟩
        intro a ha b' hb'
        have : b' = ⟨store.nextId, t, u, b.image, b.healthpath, now⟩ := by
          simpa using hb'
        subst this
        exact hinv.2 a ha
      · intro r hr
        rcases List.mem_append.mp hr with hr | hr
        · exact Nat.lt_succ_of_lt (hinv.2 r hr)
        · have : r = ⟨store.nextId, t, u, b.image, b.healthpath, now⟩ := by
            simpa using hr
          subst this
          exact Nat.lt_succ_self _

/-- Any sequence of creates preserves the SERIAL id invariant. -/
theorem runCreates_inv (inputs : List (AppBody × Nat)) :
    ∀ store : Store, idsIncreasing store →
      idsIncreasing (runCreates store inputs) := by
  induction inputs with
  | nil => exact fun store h => h
  | cons hd tl ih =>
    intro store h
    obtain ⟨b, now⟩ := hd
    cases hins : sqlInsert store b now with
    | error m => simpa [runCreates, hins] using ih store h
    | ok pr =>
      obtain ⟨row, store'⟩ := pr
      simpa [runCreates, hins] using
        ih store' (insert_preserves_inv store b now row store' h hins)

/-- Claim C9: starting from a freshly created table, after any sequence of
create operations the rows' ids are strictly increasing in creation order —
each created row's id is unique among all rows and strictly greater than the
id of every previously created row. -/
theorem claim_C9 (inputs : List (AppBody × Nat)) :
    (runCreates Store.fresh inputs).rows.Pairwise (fun a b => a.id < b.id) ∧
    ((runCreates Store.fresh inputs).rows.map AppRow.id).Nodup := by
  have hinv : idsIncreasing (runCreates Store.fresh inputs) :=
    runCreates_inv inputs Store.fresh ⟨List.Pairwise.nil, by simp [Store.fresh]⟩
  refine ⟨hinv.1, ?_⟩
  have hp : ((runCreates Store.fresh inputs).rows.map AppRow.id).Pairwise (· < ·) := by
    rw [List.pairwise_map]
    exact hinv.1
  exact hp.imp Nat.ne_of_lt

/-- Claim C10: for an authenticated update or delete whose path id the store
cannot interpret as an integer (invalid syntax or outside the int4 range),
the store raises an error and the response is 500 carrying the store's error
message, not 404; the 404 branch is reached only when the id coerces but
matches no row. -/
theorem claim_C10 (cfg : RunCfg) (accept : Option String) (s : Session)
    (store : Store) (eff : Effects) (idStr : String) (b : AppBody)
    (hauth : s.authenticated = true) (hdb : eff.dbErr = none) :
    (∀ m, parsePgInt idStr = .error m →
      (serverStep cfg (.updateApp idStr b) accept s store eff).2.2 =
        .json 500 (.error m) ∧
      (serverStep cfg (.deleteApp idStr) accept s store eff).2.2 =
        .json 500 (.error m)) ∧
    (∀ e, (serverStep cfg (.updateApp idStr b) accept s store eff).2.2 =
        .json 404 e →
      ∃ k, parsePgInt idStr = .ok k ∧
        ∀ r ∈ store.rows, ¬ idMatches k r = true) ∧
    (∀ e, (serverStep cfg (.deleteApp idStr) accept s store eff).2.2 =
        .json 404 e →
      ∃ k, parsePgInt idStr = .ok k ∧
        ∀ r ∈ store.rows, ¬ idMatches k r = true) := by
  refine ⟨fun m hm => ⟨?_, ?_⟩, fun e he => ?_, fun e he => ?_⟩
  · simp [serverStep, isAuthenticated, hauth, putApps, hdb, sqlUpdate, hm]
  · simp [serverStep, isAuthenticated, hauth, deleteApps, hdb, sqlDelete, hm]
  · cases hk : parsePgInt idStr with
    | error m =>
      simp [serverStep, isAuthenticated, hauth, putApps, hdb, sqlUpdate, hk] at he
    | ok k =>
      cases hfil : store.rows.filter (idMatches k) with
      | nil =>
        exact ⟨k, rfl, fun r hr => by
          simpa using List.filter_eq_nil_iff.mp hfil r hr⟩
      | cons r0 rest =>
        exfalso
        cases hbt : b.title with
        | none =>
          simp [serverStep, isAuthenticated, hauth, putApps, hdb, sqlUpdate,
            hk, hfil, hbt] at he
        | some t =>
          cases hbu : b.url with
          | none =>
            simp [serverStep, isAuthenticated, hauth, putApps, hdb, sqlUpdate,
              hk, hfil, hbt, hbu] at he
          | some u =>
            simp [serverStep, isAuthenticated, hauth, putApps, hdb, sqlUpdate,
              hk, hfil, hbt, hbu] at he
  · cases hk : parsePgInt idStr with
    | error m =>
      simp [serverStep, isAuthenticated, hauth, deleteApps, hdb, sqlDelete, hk] at he
    | ok k =>
      cases hfil : store.rows.filter (idMatches k) with
      | nil =>
        exact ⟨k, rfl, fun r hr => by
          simpa using List.filter_eq_nil_iff.mp hfil r hr⟩
      | cons r0 rest =>
        exfalso
        simp [serverStep, isAuthenticated, hauth, deleteApps, hdb, sqlDelete,
          hk, hfil] at he

/-- Witness for C10: an authenticated delete with the path id "2147483648",
one past the int4 maximum, answers 500 with the store's out-of-range error
message rather than 404. -/
theorem claim_C10_witness :
    (serverStep cfgEx (.deleteApp "2147483648") none ⟨true, none⟩ storeEx
      effEx).2.2 = .json 500 (.error (pgRangeErrMsg "2147483648")) :=
  ((claim_C10 cfgEx none ⟨true, none⟩ storeEx effEx "2147483648"
    ⟨none, none, none, none⟩ rfl rfl).1 (pgRangeErrMsg "2147483648") rfl).2

end AppPortal
